import Mathlib

/-!
Verification of the skill-agent service core: the completion mediator
(`routes/v1/completions.py`), the provider resolver (`agent/provider.py`),
the agent configuration validators (`agent/config.py`, `config.py`) and the
agent dependency accessor (`dependencies.py`), shallowly embedded as
executable Lean definitions together with theorems about them.
-/

namespace SkillAgent

/-- Roles of the OpenAI wire format (`models/openai_schema.py`, `ChatMessage.role`). -/
inductive Role
  | system
  | user
  | assistant
  | function
  | tool
deriving DecidableEq, Repr

/-- Inbound chat message (`models/openai_schema.py`, `ChatMessage`):
optional content and optional name, both defaulting to `None`. -/
structure ChatMessage where
  role : Role
  content : Option String := none
  name : Option String := none
deriving DecidableEq, Repr

/-- Message in the agent's reduced format: the dict
`\x7b"role": ..., "content": ...\x7d` built by the mediator's projection. -/
structure AgentMessage where
  role : Role
  content : String
deriving DecidableEq, Repr

/-- Python truthiness of an `Optional[str]`: `None` and `""` are falsy. -/
def isTruthy : Option String → Bool
  | none => false
  | some s => !s.isEmpty

/-- Embedding of `convert_openai_to_agent_messages`
(`routes/v1/completions.py`): iterate the messages in order, skip `system`,
skip `function`/`tool`, skip falsy content, and append the
user/assistant messages as role-content pairs. -/
def convert_openai_to_agent_messages : List ChatMessage → List AgentMessage
  | [] => []
  | msg :: rest =>
    if msg.role = Role.system then
      convert_openai_to_agent_messages rest
    else if msg.role = Role.function ∨ msg.role = Role.tool then
      convert_openai_to_agent_messages rest
    else if isTruthy msg.content = false then
      convert_openai_to_agent_messages rest
    else if msg.role = Role.user ∨ msg.role = Role.assistant then
      { role := msg.role, content := msg.content.getD "" } ::
        convert_openai_to_agent_messages rest
    else
      convert_openai_to_agent_messages rest

/-- Spec-side predicate (from the spec's words): a message is kept when its
role is `user` or `assistant` and its content is non-null and non-empty. -/
def isKept (m : ChatMessage) : Bool :=
  match m.role with
  | Role.user => isTruthy m.content
  | Role.assistant => isTruthy m.content
  | _ => false

/-- Spec-side projection of one kept message: role and content only, the
name field is discarded. -/
def projectMessage (m : ChatMessage) : AgentMessage :=
  { role := m.role, content := m.content.getD "" }

/-- Spec-side description of the projection: filter the kept messages in
order and map each to its role-content pair. -/
def projectionSpec (messages : List ChatMessage) : List AgentMessage :=
  (messages.filter isKept).map projectMessage

/-- Python exception class, as far as the mediator's handlers distinguish
it: `ValueError` versus any other `Exception`. -/
inductive ExnKind
  | valueError
  | otherError
deriving DecidableEq, Repr

/-- Shape of the last element of the agent reply's `messages` sequence:
an object exposing a `content` attribute (`AIMessage`), a dict that may or
may not hold a `"content"` key, or a value exposing neither (tagged with
its Python type name). -/
inductive ReplyMessage
  | attrMsg (content : String)
  | dictMsg (content : Option String)
  | otherMsg (typeName : String)
deriving DecidableEq, Repr

/-- Agent reply value: falsy (`None`, empty dict, ...) or a truthy mapping
that may or may not contain a `"messages"` key. -/
inductive AgentReply
  | falsy
  | dict (messagesField : Option (List ReplyMessage))
deriving DecidableEq, Repr

/-- Outcome of `agent.invoke`: an exception of some class with a message,
or a returned reply value. -/
inductive AgentOutcome
  | raises (kind : ExnKind) (msg : String)
  | returns (reply : AgentReply)
deriving DecidableEq, Repr

/-- Single-quote character, used inside the source's error message texts. -/
def sq : String := String.singleton (Char.ofNat 39)

/-- Message of the `ValueError` raised when the reply is falsy or lacks a
`messages` field. -/
def invalidFormatMsg : String :=
  "Agent returned invalid response format (missing " ++ sq ++ "messages" ++ sq ++ ")"

/-- Message of the `ValueError` raised when the last reply message exposes
neither a content attribute nor a content key. -/
def missingContentMsg (typeName : String) : String :=
  "Agent response missing " ++ sq ++ "content" ++ sq ++ " field. Message type: " ++ typeName

/-- Python type string of a dict. -/
def dictTypeName : String := "<class " ++ sq ++ "dict" ++ sq ++ ">"

/-- Embedding of `invoke_agent_safely` (`routes/v1/completions.py`): call
the agent, validate the reply shape, and extract the last message's
content; any exception (raised by the invocation or by the checks) is
logged and re-raised, so it propagates with its class and message. -/
def invoke_agent_safely (outcome : AgentOutcome) : Except (ExnKind × String) String :=
  match outcome with
  | AgentOutcome.raises kind msg => Except.error (kind, msg)
  | AgentOutcome.returns AgentReply.falsy =>
      Except.error (ExnKind.valueError, invalidFormatMsg)
  | AgentOutcome.returns (AgentReply.dict none) =>
      Except.error (ExnKind.valueError, invalidFormatMsg)
  | AgentOutcome.returns (AgentReply.dict (some msgs)) =>
      match msgs.getLast? with
      | none => Except.error (ExnKind.valueError, "Agent returned empty messages array")
      | some (ReplyMessage.attrMsg c) => Except.ok c
      | some (ReplyMessage.dictMsg (some c)) => Except.ok c
      | some (ReplyMessage.dictMsg none) =>
          Except.error (ExnKind.valueError, missingContentMsg dictTypeName)
      | some (ReplyMessage.otherMsg ty) =>
          Except.error (ExnKind.valueError, missingContentMsg ty)

/-- Spec-side predicate: the malformed-reply conditions listed by the spec
(reply falsy, no `messages` field, empty `messages`, or last message
exposing neither a content attribute nor a content key). -/
def malformedReply : AgentReply → Bool
  | AgentReply.falsy => true
  | AgentReply.dict none => true
  | AgentReply.dict (some msgs) =>
    match msgs.getLast? with
    | none => true
    | some (ReplyMessage.attrMsg _) => false
    | some (ReplyMessage.dictMsg (some _)) => false
    | some (ReplyMessage.dictMsg none) => true
    | some (ReplyMessage.otherMsg _) => true

/-- Lowercase hexadecimal digit of a nibble, as `uuid4().hex` renders it. -/
def hexDigitChar (n : Nat) : Char :=
  if n < 10 then Char.ofNat (48 + n) else Char.ofNat (87 + n)

/-- The 32 lowercase hex characters of `uuid.uuid4().hex`, the 128-bit
value `v` rendered most-significant nibble first. -/
def uuid4Hex (v : Nat) : List Char :=
  (List.range 32).map (fun i => hexDigitChar (v / 16 ^ (31 - i) % 16))

/-- Completion id: `"chatcmpl-" + uuid4().hex[:24]`. -/
def completion_id (v : Nat) : String :=
  "chatcmpl-" ++ String.mk ((uuid4Hex v).take 24)

/-- Character test for a lowercase hex digit: `0`-`9` or `a`-`f`. -/
def isLowerHexDigit (c : Char) : Bool :=
  (48 ≤ c.toNat && c.toNat ≤ 57) || (97 ≤ c.toNat && c.toNat ≤ 102)

/-- Assistant response message (`models/openai_schema.py`, `ResponseMessage`). -/
structure ResponseMessage where
  role : String
  content : String
deriving DecidableEq, Repr

/-- Individual completion choice (`models/openai_schema.py`). -/
structure ChatCompletionChoice where
  index : Nat
  message : ResponseMessage
  finish_reason : String
deriving DecidableEq, Repr

/-- Completion response (`models/openai_schema.py`, `ChatCompletionResponse`). -/
structure ChatCompletionResponse where
  id : String
  object : String
  created : Int
  choices : List ChatCompletionChoice
deriving DecidableEq, Repr

/-- Error detail of the OpenAI error envelope (`models/openai_schema.py`). -/
structure ErrorDetail where
  message : String
  type : String
  param : Option String
  code : Option String
deriving DecidableEq, Repr

/-- An `HTTPException` as raised by the endpoint: status code plus the
error envelope passed as `detail`. -/
structure HTTPError where
  status_code : Nat
  error : ErrorDetail
deriving DecidableEq, Repr

/-- The 400 error raised when `request.messages` is empty. -/
def emptyMessagesError : HTTPError :=
  ⟨400, ⟨"messages array cannot be empty", "invalid_request_error",
    some "messages", some "invalid_value"⟩⟩

/-- The 400 error raised when no message survives the projection. -/
def noValidMessagesError : HTTPError :=
  ⟨400, ⟨"No valid user/assistant messages found after filtering",
    "invalid_request_error", some "messages", some "invalid_value"⟩⟩

/-- The 500 error raised when a `ValueError` escapes `invoke_agent_safely`. -/
def invalidResponseError (m : String) : HTTPError :=
  ⟨500, ⟨"Agent returned invalid response: " ++ m, "agent_error",
    none, some "invalid_response"⟩⟩

/-- The 500 error raised when a non-`ValueError` exception escapes
`invoke_agent_safely`. -/
def invocationFailedError (m : String) : HTTPError :=
  ⟨500, ⟨"Agent invocation failed: " ++ m, "agent_error",
    none, some "invocation_failed"⟩⟩

/-- Response packaging on success: the `ChatCompletionResponse` literal the
handler constructs, with the generated completion id and current time. -/
def packageResponse (uuidVal : Nat) (now : Int) (response_content : String) :
    ChatCompletionResponse :=
  { id := completion_id uuidVal
    object := "chat.completion"
    created := now
    choices := [
      { index := 0
        message := { role := "assistant", content := response_content }
        finish_reason := "stop" }] }

/-- Embedding of the `create_chat_completion` endpoint handler
(`routes/v1/completions.py`). The agent is a function from the projected
messages to an invocation outcome; `uuidVal` is the random 128-bit value
behind `uuid.uuid4()` and `now` the value of `int(time.time())`. -/
def create_chat_completion (messages : List ChatMessage)
    (agent : List AgentMessage → AgentOutcome) (uuidVal : Nat) (now : Int) :
    Except HTTPError ChatCompletionResponse :=
  if messages.isEmpty then
    Except.error emptyMessagesError
  else
    let agent_messages := convert_openai_to_agent_messages messages
    if agent_messages.isEmpty then
      Except.error noValidMessagesError
    else
      match invoke_agent_safely (agent agent_messages) with
      | Except.error (ExnKind.valueError, m) => Except.error (invalidResponseError m)
      | Except.error (ExnKind.otherError, m) => Except.error (invocationFailedError m)
      | Except.ok response_content => Except.ok (packageResponse uuidVal now response_content)

/-- Configuration errors of the provider resolver, per the spec's taxonomy;
each carries the exact `ValueError` message text of the source. -/
inductive ConfigError
  | missingCredential (msg : String)
  | missingEndpoint (msg : String)
  | unsupportedProvider (msg : String)
deriving DecidableEq, Repr

/-- LLM client construction produced by the resolver: the constructor
arguments of the LangChain class the source instantiates. -/
inductive LLM
  | chatAnthropic (model : String) (api_key : String)
  | chatDatabricks (endpoint : String)
  | chatOpenAI (model : String) (api_key : String)
  | azureChatOpenAI (azure_endpoint : String) (deployment_name : String)
      (api_key : String) (api_version : String)
deriving DecidableEq, Repr

/-- Key resolution step `if api_key is None: api_key = os.getenv(var)`. -/
def resolveKey (env : String → Option String) (varName : String)
    (api_key : Option String) : Option String :=
  match api_key with
  | none => env varName
  | some k => some k

/-- Error text for a missing Anthropic key. -/
def anthropicKeyMsg : String :=
  "Anthropic API key required. Set ANTHROPIC_API_KEY environment variable or pass api_key parameter."

/-- Error text for a missing OpenAI key. -/
def openaiKeyMsg : String :=
  "OpenAI API key required. Set OPENAI_API_KEY environment variable or pass api_key parameter."

/-- Error text for a missing Azure OpenAI key. -/
def azureKeyMsg : String :=
  "Azure OpenAI API key required. Set AZURE_OPENAI_API_KEY environment variable or pass api_key parameter."

/-- Error text for a missing Azure OpenAI endpoint. -/
def azureEndpointMsg : String :=
  "Azure OpenAI endpoint required. Set AZURE_OPENAI_ENDPOINT environment variable or pass endpoint parameter."

/-- Error text for an unsupported provider name. -/
def unsupportedProviderMsg (provider : String) : String :=
  "Unsupported provider: " ++ provider ++ ". Supported providers: anthropic, databricks, openai, azure"

/-- Embedding of `get_llm_from_provider` (`agent/provider.py`, the version
exported by `agent/__init__.py`): dispatch on the provider name, resolve
the credential from the parameter or the environment, and build the
LangChain client arguments; Databricks uses `endpoint or model_name`. -/
def get_llm_from_provider (env : String → Option String) (provider : String)
    (model_name : String) (api_key : Option String) (endpoint : Option String) :
    Except ConfigError LLM :=
  if provider = "anthropic" then
    let key := resolveKey env "ANTHROPIC_API_KEY" api_key
    if isTruthy key = false then
      Except.error (ConfigError.missingCredential anthropicKeyMsg)
    else
      Except.ok (LLM.chatAnthropic model_name (key.getD ""))
  else if provider = "databricks" then
    Except.ok (LLM.chatDatabricks (if isTruthy endpoint then endpoint.getD "" else model_name))
  else if provider = "openai" then
    let key := resolveKey env "OPENAI_API_KEY" api_key
    if isTruthy key = false then
      Except.error (ConfigError.missingCredential openaiKeyMsg)
    else
      Except.ok (LLM.chatOpenAI model_name (key.getD ""))
  else if provider = "azure" then
    let key := resolveKey env "AZURE_OPENAI_API_KEY" api_key
    if isTruthy key = false then
      Except.error (ConfigError.missingCredential azureKeyMsg)
    else if isTruthy endpoint = false then
      Except.error (ConfigError.missingEndpoint azureEndpointMsg)
    else
      Except.ok (LLM.azureChatOpenAI (endpoint.getD "") model_name (key.getD "")
        "2024-02-15-preview")
  else
    Except.error (ConfigError.unsupportedProvider (unsupportedProviderMsg provider))

/-- Embedding of the `set_default_model` validator (`agent/config.py`):
when the model is unspecified, look it up in the per-provider default
table. -/
def set_default_model (provider : String) (v : Option String) : Option String :=
  match v with
  | some s => some s
  | none =>
    if provider = "anthropic" then some "claude-sonnet-4-5-20250929"
    else if provider = "databricks" then some "databricks-claude-sonnet-4-5"
    else if provider = "openai" then some "gpt-4-turbo"
    else if provider = "azure" then some "gpt-4"
    else none

/-- Error text of the `validate_endpoint` validator. -/
def endpointRequiredMsg (provider : String) : String :=
  "Endpoint required for " ++ provider ++ " provider. Set via --endpoint flag or AZURE_OPENAI_ENDPOINT environment variable."

/-- Embedding of the `validate_endpoint` validator (`agent/config.py`):
for Databricks and Azure without an endpoint value, consult the
environment; Azure with still no endpoint raises. -/
def validate_endpoint (env : String → Option String) (provider : String)
    (v : Option String) : Except String (Option String) :=
  if (provider = "databricks" ∨ provider = "azure") ∧ isTruthy v = false then
    let v2 : Option String :=
      if provider = "databricks" then some ((env "DATABRICKS_HOST").getD "databricks")
      else if provider = "azure" then env "AZURE_OPENAI_ENDPOINT"
      else v
    if isTruthy v2 = false ∧ provider = "azure" then
      Except.error (endpointRequiredMsg provider)
    else
      Except.ok v2
  else
    Except.ok v

/-- Error text of the `validate_auto_approve` validator (`config.py`). -/
def autoApproveMsg : String :=
  "agent_auto_approve must be True for API usage. Interactive prompts cannot work in HTTP request context."

/-- Embedding of the `validate_auto_approve` validator (`config.py`):
reject a configuration whose auto-approve flag is off. -/
def validate_auto_approve (v : Bool) : Except String Bool :=
  if v = false then Except.error autoApproveMsg else Except.ok v

/-- Error text of the agent dependency accessor (`dependencies.py`). -/
def agentNotInitializedMsg : String :=
  "Agent not initialized. Check application startup logs for errors."

/-- Embedding of `get_agent` (`dependencies.py`): the application state
either holds an agent handle or lacks the attribute entirely. -/
def get_agent {α : Type} (state : Option α) : Except String α :=
  match state with
  | none => Except.error agentNotInitializedMsg
  | some a => Except.ok a

/-- Projecting an empty list yields an empty list. -/
lemma convert_nil : convert_openai_to_agent_messages [] = [] := rfl

/-- A non-empty projection forces a non-empty input list. -/
lemma messages_ne_nil_of_convert_ne_nil {messages : List ChatMessage}
    (h : convert_openai_to_agent_messages messages ≠ []) : messages ≠ [] := by
  intro hm
  exact h (hm ▸ convert_nil)

/-- Handler behaviour on an empty request. -/
lemma create_chat_completion_nil (agent : List AgentMessage → AgentOutcome)
    (u : Nat) (t : Int) :
    create_chat_completion [] agent u t = Except.error emptyMessagesError := rfl

/-- Handler behaviour when the projection filters everything out. -/
lemma create_chat_completion_filtered {messages : List ChatMessage}
    (agent : List AgentMessage → AgentOutcome) (u : Nat) (t : Int)
    (h1 : messages ≠ []) (h2 : convert_openai_to_agent_messages messages = []) :
    create_chat_completion messages agent u t = Except.error noValidMessagesError := by
  simp [create_chat_completion, h1, h2]

/-- Handler behaviour once validation passes: it is the translation of the
agent invocation's outcome. -/
lemma create_chat_completion_invoke {messages : List ChatMessage}
    (agent : List AgentMessage → AgentOutcome) (u : Nat) (t : Int)
    (h2 : convert_openai_to_agent_messages messages ≠ []) :
    create_chat_completion messages agent u t =
      match invoke_agent_safely (agent (convert_openai_to_agent_messages messages)) with
      | Except.error (ExnKind.valueError, m) => Except.error (invalidResponseError m)
      | Except.error (ExnKind.otherError, m) => Except.error (invocationFailedError m)
      | Except.ok response_content => Except.ok (packageResponse u t response_content) := by
  have h1 : messages ≠ [] := messages_ne_nil_of_convert_ne_nil h2
  simp [create_chat_completion, h1, h2]

/-- C1: for every inbound message list, the mediator's projection iterates
the messages in order, drops every `system`/`function`/`tool` message and
every message with null or empty content, and keeps each remaining
user/assistant message verbatim as its role-content pair only (the name
field is discarded), preserving the relative order of the kept messages:
the source projection equals the spec's filter-then-map description. -/
theorem C1_projection_filters_and_preserves_order (messages : List ChatMessage) :
    convert_openai_to_agent_messages messages = projectionSpec messages := by
  induction messages with
  | nil => rfl
  | cons msg rest ih =>
    cases hr : msg.role <;>
      cases hc : isTruthy msg.content <;>
        simp [convert_openai_to_agent_messages, projectionSpec, List.filter_cons,
          isKept, projectMessage, hr, hc, ih]

/-- C2: a 400 invalid_request_error envelope with param `messages` and
code `invalid_value` is returned exactly when the request's message list
is empty or the projected sequence is empty after filtering; in the
filtered case the error message is exactly "No valid user/assistant
messages found after filtering"; and in either case the result does not
depend on the agent, so the agent is never invoked. -/
theorem C2_validation_400 (messages : List ChatMessage)
    (agent : List AgentMessage → AgentOutcome) (u : Nat) (t : Int) :
    ((∃ d : HTTPError, create_chat_completion messages agent u t = Except.error d
        ∧ d.status_code = 400 ∧ d.error.type = "invalid_request_error"
        ∧ d.error.param = some "messages" ∧ d.error.code = some "invalid_value")
      ↔ (messages = [] ∨ convert_openai_to_agent_messages messages = []))
    ∧ (messages ≠ [] → convert_openai_to_agent_messages messages = [] →
        create_chat_completion messages agent u t = Except.error noValidMessagesError)
    ∧ ((messages = [] ∨ convert_openai_to_agent_messages messages = []) →
        ∀ agent2 : List AgentMessage → AgentOutcome,
          create_chat_completion messages agent2 u t
            = create_chat_completion messages agent u t) := by
  by_cases h1 : messages = []
  · subst h1
    refine ⟨⟨fun _ => Or.inl rfl, fun _ => ⟨emptyMessagesError, rfl, rfl, rfl, rfl, rfl⟩⟩,
      fun hne => absurd rfl hne, fun _ agent2 => rfl⟩
  · by_cases h2 : convert_openai_to_agent_messages messages = []
    · have hfil := create_chat_completion_filtered agent u t h1 h2
      refine ⟨⟨fun _ => Or.inr h2,
          fun _ => ⟨noValidMessagesError, hfil, rfl, rfl, rfl, rfl⟩⟩,
        fun _ _ => hfil, fun _ agent2 => ?_⟩
      rw [create_chat_completion_filtered agent2 u t h1 h2, hfil]
    · have hinv := create_chat_completion_invoke agent u t h2
      refine ⟨⟨?_, fun hor => absurd hor (by simp [h1, h2])⟩,
        fun _ hc => absurd hc h2, fun hor => absurd hor (by simp [h1, h2])⟩
      rintro ⟨d, hd, h400, -, -, -⟩
      rw [hinv] at hd
      split at hd
      · injection hd with hd'
        subst hd'
        simp [invalidResponseError] at h400
      · injection hd with hd'
        subst hd'
        simp [invocationFailedError] at h400
      · exact Except.noConfusion hd

/-- C2 witness: a request holding only a system message is rejected with
the exact 400 noValidMessagesError envelope. -/
theorem C2_validation_400_witness :
    create_chat_completion [{ role := Role.system, content := some "x" }]
        (fun _ => AgentOutcome.returns AgentReply.falsy) 0 0
      = Except.error noValidMessagesError :=
  (C2_validation_400 [{ role := Role.system, content := some "x" }]
      (fun _ => AgentOutcome.returns AgentReply.falsy) 0 0).2.1
    (by decide) rfl

/-- C3 counterexample: with a valid one-message request, an agent whose
invocation itself raises a ValueError carrying the text "boom" is reported
with code invalid_response — not invocation_failed as the claim states for
every exception raised by the invocation. -/
theorem C3_counterexample_valueerror_from_invocation :
    create_chat_completion [{ role := Role.user, content := some "hi" }]
        (fun _ => AgentOutcome.raises ExnKind.valueError "boom") 0 0
      = Except.error (invalidResponseError "boom")
    ∧ (invalidResponseError "boom").error.code = some "invalid_response"
    ∧ (invalidResponseError "boom").error.code ≠ some "invocation_failed" := by
  refine ⟨rfl, rfl, by decide⟩

/-- Malformed replies make `invoke_agent_safely` raise a ValueError. -/
lemma invoke_malformed {reply : AgentReply} (h : malformedReply reply = true) :
    ∃ em, invoke_agent_safely (AgentOutcome.returns reply)
      = Except.error (ExnKind.valueError, em) := by
  cases reply with
  | falsy => exact ⟨invalidFormatMsg, rfl⟩
  | dict mf =>
    cases mf with
    | none => exact ⟨invalidFormatMsg, rfl⟩
    | some msgs =>
      cases hl : msgs.getLast? with
      | none =>
        exact ⟨"Agent returned empty messages array", by simp [invoke_agent_safely, hl]⟩
      | some last =>
        cases last with
        | attrMsg c => simp [malformedReply, hl] at h
        | dictMsg oc =>
          cases oc with
          | none => exact ⟨missingContentMsg dictTypeName, by simp [invoke_agent_safely, hl]⟩
          | some c => simp [malformedReply, hl] at h
        | otherMsg ty => exact ⟨missingContentMsg ty, by simp [invoke_agent_safely, hl]⟩

/-- C3 (amended): once validation passes, an exception raised by the
invocation that is not a ValueError is reported as agent_error with code
invocation_failed and HTTP 500 with the underlying exception text embedded
in error.message; a ValueError raised by the invocation itself, and every
malformed-reply condition, are reported as agent_error with code
invalid_response and HTTP 500. -/
theorem C3_error_taxonomy (messages : List ChatMessage)
    (agent : List AgentMessage → AgentOutcome) (u : Nat) (t : Int)
    (h2 : convert_openai_to_agent_messages messages ≠ []) :
    (∀ m, agent (convert_openai_to_agent_messages messages)
          = AgentOutcome.raises ExnKind.otherError m →
        create_chat_completion messages agent u t = Except.error (invocationFailedError m)
        ∧ (invocationFailedError m).error.message = "Agent invocation failed: " ++ m
        ∧ (invocationFailedError m).status_code = 500
        ∧ (invocationFailedError m).error.type = "agent_error"
        ∧ (invocationFailedError m).error.code = some "invocation_failed")
    ∧ (∀ m, agent (convert_openai_to_agent_messages messages)
          = AgentOutcome.raises ExnKind.valueError m →
        create_chat_completion messages agent u t = Except.error (invalidResponseError m))
    ∧ (∀ reply, agent (convert_openai_to_agent_messages messages)
          = AgentOutcome.returns reply → malformedReply reply = true →
        ∃ em, create_chat_completion messages agent u t
            = Except.error (invalidResponseError em)
          ∧ (invalidResponseError em).status_code = 500
          ∧ (invalidResponseError em).error.type = "agent_error"
          ∧ (invalidResponseError em).error.code = some "invalid_response") := by
  have hinv := create_chat_completion_invoke agent u t h2
  refine ⟨?_, ?_, ?_⟩
  · intro m hm
    rw [hinv, hm]
    exact ⟨rfl, rfl, rfl, rfl, rfl⟩
  · intro m hm
    rw [hinv, hm]
    rfl
  · intro reply hr hm
    obtain ⟨em, he⟩ := invoke_malformed hm
    refine ⟨em, ?_, rfl, rfl, rfl⟩
    rw [hinv, hr, he]

/-- C3 witness: a concrete non-ValueError invocation failure with text
"down" is reported as invocation_failed. -/
theorem C3_error_taxonomy_witness :
    create_chat_completion [{ role := Role.user, content := some "hi" }]
        (fun _ => AgentOutcome.raises ExnKind.otherError "down") 0 0
      = Except.error (invocationFailedError "down") :=
  ((C3_error_taxonomy [{ role := Role.user, content := some "hi" }]
      (fun _ => AgentOutcome.raises ExnKind.otherError "down") 0 0 (by decide)).1
    "down" rfl).1

/-- C4: for two successful agent replies carrying the same content string,
one exposing it as a direct attribute of the last message and one exposing
it as the content key of a dict, the mediator extracts the same text and
produces an identical response. -/
theorem C4_shape_agnostic (messages : List ChatMessage) (pre1 pre2 : List ReplyMessage)
    (c : String) (u : Nat) (t : Int) :
    invoke_agent_safely (AgentOutcome.returns
        (AgentReply.dict (some (pre1 ++ [ReplyMessage.attrMsg c])))) = Except.ok c
    ∧ invoke_agent_safely (AgentOutcome.returns
        (AgentReply.dict (some (pre2 ++ [ReplyMessage.dictMsg (some c)])))) = Except.ok c
    ∧ create_chat_completion messages
        (fun _ => AgentOutcome.returns (AgentReply.dict (some (pre1 ++ [ReplyMessage.attrMsg c])))) u t
      = create_chat_completion messages
        (fun _ => AgentOutcome.returns (AgentReply.dict (some (pre2 ++ [ReplyMessage.dictMsg (some c)])))) u t := by
  have hone : invoke_agent_safely (AgentOutcome.returns
      (AgentReply.dict (some (pre1 ++ [ReplyMessage.attrMsg c])))) = Except.ok c := by
    simp [invoke_agent_safely]
  have htwo : invoke_agent_safely (AgentOutcome.returns
      (AgentReply.dict (some (pre2 ++ [ReplyMessage.dictMsg (some c)])))) = Except.ok c := by
    simp [invoke_agent_safely]
  refine ⟨hone, htwo, ?_⟩
  by_cases hm : messages = []
  · subst hm
    rfl
  · by_cases hc : convert_openai_to_agent_messages messages = []
    · rw [create_chat_completion_filtered _ u t hm hc,
        create_chat_completion_filtered _ u t hm hc]
    · rw [create_chat_completion_invoke _ u t hc, create_chat_completion_invoke _ u t hc]
      simp only [hone, htwo]

/-- Each nibble renders to a lowercase hex character. -/
lemma hexDigitChar_isLowerHexDigit : ∀ n < 16, isLowerHexDigit (hexDigitChar n) = true := by
  decide

/-- The uuid hex rendering has 32 characters. -/
lemma uuid4Hex_length (v : Nat) : (uuid4Hex v).length = 32 := by
  simp [uuid4Hex]

/-- Every character of the uuid hex rendering is a lowercase hex digit. -/
lemma uuid4Hex_chars {v : Nat} {c : Char} (h : c ∈ uuid4Hex v) :
    isLowerHexDigit c = true := by
  simp only [uuid4Hex, List.mem_map, List.mem_range] at h
  obtain ⟨i, _, rfl⟩ := h
  exact hexDigitChar_isLowerHexDigit _ (Nat.mod_lt _ (by norm_num))

/-- C8: every successful invocation produces a response whose id is
"chatcmpl-" followed by 24 lowercase-hex characters, whose object field is
"chat.completion", whose created field is the current Unix time, and whose
choices list is exactly one choice at index 0 with role assistant,
finish_reason stop, and the extracted agent text as content. -/
theorem C8_success_response_shape (messages : List ChatMessage)
    (agent : List AgentMessage → AgentOutcome) (u : Nat) (t : Int)
    (resp : ChatCompletionResponse)
    (h : create_chat_completion messages agent u t = Except.ok resp) :
    (∃ tail : List Char, resp.id = "chatcmpl-" ++ String.mk tail ∧ tail.length = 24
        ∧ ∀ c ∈ tail, isLowerHexDigit c = true)
    ∧ resp.object = "chat.completion"
    ∧ resp.created = t
    ∧ ∃ content, invoke_agent_safely (agent (convert_openai_to_agent_messages messages))
          = Except.ok content
        ∧ resp.choices
            = [ChatCompletionChoice.mk 0 (ResponseMessage.mk "assistant" content) "stop"] := by
  have h2 : convert_openai_to_agent_messages messages ≠ [] := by
    intro hc
    by_cases hm : messages = []
    · subst hm
      exact Except.noConfusion (create_chat_completion_nil agent u t ▸ h)
    · exact Except.noConfusion (create_chat_completion_filtered agent u t hm hc ▸ h)
  rw [create_chat_completion_invoke agent u t h2] at h
  split at h
  · exact Except.noConfusion h
  · exact Except.noConfusion h
  · rename_i content heq
    injection h with hresp
    subst hresp
    refine ⟨⟨(uuid4Hex u).take 24, rfl, ?_, ?_⟩, rfl, rfl, content, heq, rfl⟩
    · rw [List.length_take, uuid4Hex_length]
      decide
    · intro c hc
      exact uuid4Hex_chars (List.mem_of_mem_take hc)

/-- C8 witness: the concrete successful invocation with uuid value 0 and
time 5 returns the packaged response, whose object and created fields the
theorem certifies. -/
theorem C8_success_response_shape_witness :
    (packageResponse 0 5 "ok").object = "chat.completion"
    ∧ (packageResponse 0 5 "ok").created = 5 :=
  ⟨(C8_success_response_shape [{ role := Role.user, content := some "hi" }]
      (fun _ => AgentOutcome.returns (AgentReply.dict (some [ReplyMessage.attrMsg "ok"])))
      0 5 (packageResponse 0 5 "ok") rfl).2.1,
   (C8_success_response_shape [{ role := Role.user, content := some "hi" }]
      (fun _ => AgentOutcome.returns (AgentReply.dict (some [ReplyMessage.attrMsg "ok"])))
      0 5 (packageResponse 0 5 "ok") rfl).2.2.1⟩

/-- C5: resolving the databricks provider with an explicit model name and
no endpoint succeeds and yields an endpoint equal to the model identifier
itself, for every model string and every environment. -/
theorem C5_databricks_endpoint_defaults_to_model (env : String → Option String)
    (m : String) :
    get_llm_from_provider env "databricks" m none none
      = Except.ok (LLM.chatDatabricks m) := rfl

/-- C6: resolving the azure provider with an API key supplied but no
endpoint parameter and no `AZURE_OPENAI_ENDPOINT` environment variable
fails with a MissingEndpoint configuration error, for every model value;
the `AgentConfig` endpoint validator likewise rejects such a
configuration. -/
theorem C6_azure_missing_endpoint (env : String → Option String) (m k : String)
    (hk : k ≠ "") (henv : env "AZURE_OPENAI_ENDPOINT" = none) :
    get_llm_from_provider env "azure" m (some k) none
      = Except.error (ConfigError.missingEndpoint azureEndpointMsg)
    ∧ validate_endpoint env "azure" none
      = Except.error (endpointRequiredMsg "azure") := by
  constructor
  · simp [get_llm_from_provider, resolveKey, isTruthy, String.isEmpty_iff, hk]
  · simp [validate_endpoint, isTruthy, henv]

/-- C6 witness: a concrete azure resolution with key `"k"`, model `"gpt-4"`
and an empty environment fails with the MissingEndpoint error. -/
theorem C6_azure_missing_endpoint_witness :
    get_llm_from_provider (fun _ => none) "azure" "gpt-4" (some "k") none
      = Except.error (ConfigError.missingEndpoint azureEndpointMsg)
    ∧ validate_endpoint (fun _ => none) "azure" none
      = Except.error (endpointRequiredMsg "azure") :=
  C6_azure_missing_endpoint (fun _ => none) "gpt-4" "k" (by decide) rfl

/-- C7: resolving the anthropic provider with no API key parameter and no
`ANTHROPIC_API_KEY` in the environment fails with a MissingCredential
configuration error for every model value, and the anthropic model, when
absent, resolves to the default `claude-sonnet-4-5-20250929`. -/
theorem C7_anthropic_missing_credential (env : String → Option String)
    (m : String) (henv : env "ANTHROPIC_API_KEY" = none) :
    get_llm_from_provider env "anthropic" m none none
      = Except.error (ConfigError.missingCredential anthropicKeyMsg)
    ∧ set_default_model "anthropic" none = some "claude-sonnet-4-5-20250929" := by
  refine ⟨?_, rfl⟩
  simp [get_llm_from_provider, resolveKey, isTruthy, henv]

/-- C7 witness: the concrete anthropic resolution with the default model
name and an empty environment fails with the MissingCredential error. -/
theorem C7_anthropic_missing_credential_witness :
    get_llm_from_provider (fun _ => none) "anthropic" "claude-sonnet-4-5-20250929" none none
      = Except.error (ConfigError.missingCredential anthropicKeyMsg)
    ∧ set_default_model "anthropic" none = some "claude-sonnet-4-5-20250929" :=
  C7_anthropic_missing_credential (fun _ => none) "claude-sonnet-4-5-20250929" rfl

/-- C9: constructing the application configuration raises a validation
error if and only if `agent_auto_approve` is False; when the flag is True
the validator accepts it unchanged. -/
theorem C9_auto_approve_validator (v : Bool) :
    (validate_auto_approve v = Except.error autoApproveMsg ↔ v = false)
    ∧ (v = true → validate_auto_approve v = Except.ok true) := by
  cases v <;> simp [validate_auto_approve]

/-- C9 witness: the validator rejects False and accepts True. -/
theorem C9_auto_approve_validator_witness :
    validate_auto_approve false = Except.error autoApproveMsg
    ∧ validate_auto_approve true = Except.ok true :=
  ⟨(C9_auto_approve_validator false).1.mpr rfl, (C9_auto_approve_validator true).2 rfl⟩

/-- C10: the agent dependency accessor raises a RuntimeError whose message
begins with "Agent not initialized" exactly when the application state has
no agent attribute, and otherwise returns the stored agent handle
unchanged. -/
theorem C10_get_agent_accessor {α : Type} (state : Option α) :
    (get_agent state = Except.error agentNotInitializedMsg ↔ state = none)
    ∧ agentNotInitializedMsg
        = "Agent not initialized" ++ ". Check application startup logs for errors."
    ∧ (∀ a : α, state = some a → get_agent state = Except.ok a) := by
  refine ⟨?_, rfl, ?_⟩
  · cases state <;> simp [get_agent]
  · intro a ha
    subst ha
    rfl

/-- C10 witness: the accessor errors on a missing attribute and returns a
stored handle unchanged. -/
theorem C10_get_agent_accessor_witness :
    get_agent (none : Option Nat) = Except.error agentNotInitializedMsg
    ∧ get_agent (some 7) = Except.ok 7 :=
  ⟨(C10_get_agent_accessor (none : Option Nat)).1.mpr rfl,
   (C10_get_agent_accessor (some 7)).2.2 7 rfl⟩

end SkillAgent
